import Mathlib

/-!
Shallow embedding of the Productivity Scoring & Recommendation Engine of the
mini-ai-hrms repository (backend/src/services/aiService.js, with the score
route of backend/src/routes/ai.js), together with theorems settling the
specification claims about it.

Timestamps are modelled as integers (milliseconds since the JavaScript epoch);
JavaScript number arithmetic on the quantities involved is exact and is
modelled with rationals; SQL rows become Lean structures; the two mutable
stores the engine touches (tasks, ai_scores) live in a `DB` record that the
operations thread explicitly.
-/

namespace MiniHRMS

/-- JavaScript `Math.round`: round half toward positive infinity. -/
def jsRound (q : ℚ) : ℤ := ⌊q + 1/2⌋

/-- `Math.round(x * 100) / 100`: round to two decimal places. -/
def round2 (q : ℚ) : ℚ := (jsRound (q * 100) : ℚ) / 100

/-- One day in milliseconds, as used in `Date.now() - 7 * 24 * 60 * 60 * 1000`. -/
def dayMs : ℤ := 24 * 60 * 60 * 1000

/-- `new Date(x)` applied to a possibly-null timestamp column: SQL NULL
(JavaScript `null`) coerces to the epoch, `new Date(null).getTime() = 0`. -/
def jsDate (t : Option ℤ) : ℤ := t.getD 0

/-- A row of the `tasks` table, restricted to the columns the engine reads
(`SELECT status, priority, due_date, completed_at, created_at ... WHERE
assigned_to = $1`). -/
structure Task where
  assigned_to : String
  status : String
  priority : String
  due_date : Option ℤ
  completed_at : Option ℤ
  created_at : ℤ
deriving DecidableEq

/-- A row of the `users` table, restricted to the columns read by the score
route, the upsert and the ranking query. -/
structure User where
  id : String
  name : String
  department : String
  organization_id : String
  role : String
  is_active : Bool
  skills : Option (List String)
deriving DecidableEq

/-- A row of the `ai_scores` table (the persisted ProductivityRecord); the
table has a unique constraint on `user_id` (the upsert conflicts on it). -/
structure AiScore where
  user_id : String
  organization_id : String
  productivity_score : ℚ
  task_completion_rate : ℚ
  on_time_rate : ℚ
  performance_trend : String
  recommendations : List String
  last_calculated : ℤ
deriving DecidableEq

/-- The database state visible to the engine: `ai_scores` is keyed uniquely
by user id and is therefore modelled as a partial map. -/
structure DB where
  users : List User
  tasks : List Task
  ai_scores : String → Option AiScore

/-- `SELECT ... FROM tasks WHERE assigned_to = $1`. -/
def userTasks (db : DB) (uid : String) : List Task :=
  db.tasks.filter (fun t => t.assigned_to == uid)

/-- `tasks.filter((t) => t.status === 'completed')`. -/
def completedOf (tasks : List Task) : List Task :=
  tasks.filter (fun t => t.status == "completed")

/-- `completedTasks.length / totalTasks`. -/
def completionRate (tasks : List Task) : ℚ :=
  ((completedOf tasks).length : ℚ) / (tasks.length : ℚ)

/-- `completedTasks.filter((t) => !t.due_date ? true : new Date(t.completed_at) <= new Date(t.due_date))`. -/
def onTimeTasks (tasks : List Task) : List Task :=
  (completedOf tasks).filter (fun t =>
    match t.due_date with
    | none => true
    | some d => decide (jsDate t.completed_at ≤ d))

/-- `completedTasks.length > 0 ? onTimeTasks.length / completedTasks.length : 0`. -/
def onTimeRate (tasks : List Task) : ℚ :=
  if 0 < (completedOf tasks).length then
    ((onTimeTasks tasks).length : ℚ) / ((completedOf tasks).length : ℚ)
  else 0

/-- `completedTasks.filter((t) => t.priority === 'high').length`. -/
def highPriority (tasks : List Task) : ℕ :=
  ((completedOf tasks).filter (fun t => t.priority == "high")).length

/-- `completedTasks.filter((t) => t.priority === 'medium').length`. -/
def medPriority (tasks : List Task) : ℕ :=
  ((completedOf tasks).filter (fun t => t.priority == "medium")).length

/-- `(highPriority * 1.0 + medPriority * 0.6) / completedTasks.length`, or 0
when no task is completed. -/
def complexityScore (tasks : List Task) : ℚ :=
  if 0 < (completedOf tasks).length then
    ((highPriority tasks : ℚ) * 1.0 + (medPriority tasks : ℚ) * 0.6) /
      ((completedOf tasks).length : ℚ)
  else 0

/-- `completedTasks.filter((t) => t.completed_at && new Date(t.completed_at) >= sevenDaysAgo).length`:
note the source checks only the lower bound of the window. -/
def recentCompleted (tasks : List Task) (now : ℤ) : ℕ :=
  ((completedOf tasks).filter (fun t =>
    match t.completed_at with
    | none => false
    | some c => decide (now - 7 * dayMs ≤ c))).length

/-- `Math.min(recentCompleted / 3, 1)`. -/
def recentBonus (tasks : List Task) (now : ℤ) : ℚ :=
  min ((recentCompleted tasks now : ℚ) / 3) 1

/-- `completionRate * 40 + onTimeRate * 30 + complexityScore * 20 + recentBonus * 10`. -/
def rawScore (tasks : List Task) (now : ℤ) : ℚ :=
  completionRate tasks * 40 + onTimeRate tasks * 30 +
    complexityScore tasks * 20 + recentBonus tasks now * 10

/-- `Math.round(Math.min(rawScore, 100) * 100) / 100`. -/
def scoreOf (tasks : List Task) (now : ℤ) : ℚ :=
  round2 (min (rawScore tasks now) 100)

/-- Completions in `[now-14d, now-7d)`:
`t.completed_at && c >= fourteenDaysAgo && c < sevenDaysAgo`. -/
def prevPeriod (tasks : List Task) (now : ℤ) : ℕ :=
  ((completedOf tasks).filter (fun t =>
    match t.completed_at with
    | none => false
    | some c => decide (now - 14 * dayMs ≤ c) && decide (c < now - 7 * dayMs))).length

/-- `'improving'` when `recentCompleted > prevPeriod + 1`, `'declining'` when
`recentCompleted < prevPeriod - 1`, else `'stable'` (JavaScript number
arithmetic, hence integer subtraction). -/
def trendOf (tasks : List Task) (now : ℤ) : String :=
  if (recentCompleted tasks now : ℤ) > (prevPeriod tasks now : ℤ) + 1 then "improving"
  else if (recentCompleted tasks now : ℤ) < (prevPeriod tasks now : ℤ) - 1 then "declining"
  else "stable"

/-- The recommendation list, built by the four independent pushes followed by
the empty-list fallback. -/
def recommendationsOf (tasks : List Task) (now : ℤ) : List String :=
  let base :=
    (if completionRate tasks < 0.5 then ["Focus on completing assigned tasks"] else []) ++
    (if onTimeRate tasks < 0.6 then ["Improve time management to meet deadlines"] else []) ++
    (if highPriority tasks = 0 then ["Take on higher priority tasks to boost score"] else []) ++
    (if recentCompleted tasks now = 0 then ["Stay active — complete tasks regularly"] else [])
  if base = [] then ["Great work! Keep up the momentum!"] else base

/-- The row written by the upsert: on conflict the listed columns of the
existing row are updated (`organization_id` is kept), otherwise a fresh row is
inserted with the user's organization. -/
def upsertRecord (old? : Option AiScore) (orgId uid : String) (score tcr otr : ℚ)
    (trend : String) (recs : List String) (now : ℤ) : AiScore :=
  match old? with
  | some old =>
    { old with
      productivity_score := score
      task_completion_rate := tcr
      on_time_rate := otr
      performance_trend := trend
      recommendations := recs
      last_calculated := now }
  | none =>
    { user_id := uid
      organization_id := orgId
      productivity_score := score
      task_completion_rate := tcr
      on_time_rate := otr
      performance_trend := trend
      recommendations := recs
      last_calculated := now }

/-- The `INSERT ... SELECT ... FROM users WHERE id = $1 ON CONFLICT (user_id)
DO UPDATE ...` upsert: it writes nothing when no users row matches, and
otherwise replaces the employee's single score row. -/
def upsertScore (db : DB) (uid : String) (score tcr otr : ℚ) (trend : String)
    (recs : List String) (now : ℤ) : DB :=
  match db.users.find? (fun u => u.id == uid) with
  | none => db
  | some u =>
    { db with ai_scores := fun v =>
        if v = uid then
          some (upsertRecord (db.ai_scores uid) u.organization_id uid score tcr otr trend recs now)
        else db.ai_scores v }

/-- The object returned by `calculateProductivityScore`. The zero-task early
return of the source omits the `totalTasks` and `completedTasks` keys, so the
two fields are optional. -/
structure ScoreResult where
  score : ℚ
  taskCompletionRate : ℚ
  onTimeRate : ℚ
  complexityScore : ℚ
  recentActivityBonus : ℚ
  trend : String
  recommendations : List String
  totalTasks : Option ℕ
  completedTasks : Option ℕ
deriving DecidableEq

/-- `calculateProductivityScore(userId)`: reads the user's tasks, short-circuits
on an empty set, otherwise computes the sub-metrics, persists via the upsert
and returns the result object (with whole-percent rounding on the returned
rate fields). -/
def calculateProductivityScore (uid : String) (db : DB) (now : ℤ) : ScoreResult × DB :=
  let tasks := userTasks db uid
  let totalTasks := tasks.length
  if totalTasks = 0 then
    ({ score := 0
       taskCompletionRate := 0
       onTimeRate := 0
       complexityScore := 0
       recentActivityBonus := 0
       trend := "no_data"
       recommendations := ["Get started by completing your first task!"]
       totalTasks := none
       completedTasks := none }, db)
  else
    let score := scoreOf tasks now
    let trend := trendOf tasks now
    let recs := recommendationsOf tasks now
    let db' := upsertScore db uid score (round2 (completionRate tasks * 100))
      (round2 (onTimeRate tasks * 100)) trend recs now
    ({ score := score
       taskCompletionRate := (jsRound (completionRate tasks * 100) : ℚ)
       onTimeRate := (jsRound (onTimeRate tasks * 100) : ℚ)
       complexityScore := (jsRound (complexityScore tasks * 100) : ℚ)
       recentActivityBonus := (jsRound (recentBonus tasks now * 100) : ℚ)
       trend := trend
       recommendations := recs
       totalTasks := some totalTasks
       completedTasks := some (completedOf tasks).length }, db')

/-- Outcome of `GET /api/ai/score/:userId` as the route distinguishes it:
403 Access denied, 404 Employee not found, or 200 with the score payload. -/
inductive ScoreResponse
  | accessDenied
  | notFound
  | ok (r : ScoreResult)
deriving DecidableEq

/-- `req.user` as attached by the `authenticate` middleware (a fresh row read
from the `users` table). -/
structure ReqUser where
  id : String
  role : String
  organization_id : String
deriving DecidableEq

/-- The `GET /api/ai/score/:userId` handler: employees may only request their
own score; admins get a 404 when the target user is not in their organization;
otherwise the score is computed. -/
def scoreRoute (requester : ReqUser) (userId : String) (db : DB) (now : ℤ) :
    ScoreResponse × DB :=
  if requester.role == "employee" && requester.id != userId then
    (ScoreResponse.accessDenied, db)
  else if requester.role == "admin" &&
      !(db.users.any (fun u => u.id == userId && u.organization_id == requester.organization_id)) then
    (ScoreResponse.notFound, db)
  else
    let rd := calculateProductivityScore userId db now
    (ScoreResponse.ok rd.1, rd.2)

/-- A row produced by the ranking SQL query of `getTaskAssignmentSuggestions`:
id, name, department, skills, non-completed task count, and the persisted
productivity score coalesced to 0. -/
structure CandRow where
  id : String
  name : String
  department : String
  skills : Option (List String)
  active_tasks : ℕ
  productivity_score : ℚ
deriving DecidableEq

/-- `COUNT(t.id) FILTER (WHERE t.status != 'completed')` over the tasks
assigned to the user. -/
def activeTaskCount (db : DB) (uid : String) : ℕ :=
  (db.tasks.filter (fun t => t.assigned_to == uid && t.status != "completed")).length

/-- The rows of the ranking query before its ORDER BY: active employees of the
organization with their active-task count and coalesced productivity score. -/
def candidateRows (db : DB) (orgId : String) : List CandRow :=
  (db.users.filter (fun u =>
    u.organization_id == orgId && u.role == "employee" && u.is_active)).map
    (fun u =>
      { id := u.id
        name := u.name
        department := u.department
        skills := u.skills
        active_tasks := activeTaskCount db u.id
        productivity_score :=
          match db.ai_scores u.id with
          | some a => a.productivity_score
          | none => 0 })

/-- `ORDER BY active_tasks ASC, a.productivity_score DESC` as a total preorder
on rows. -/
def rowBefore (a b : CandRow) : Prop :=
  a.active_tasks < b.active_tasks ∨
    (a.active_tasks = b.active_tasks ∧ b.productivity_score ≤ a.productivity_score)

instance : DecidableRel rowBefore := fun a b =>
  decidable_of_iff (a.active_tasks < b.active_tasks ∨
    (a.active_tasks = b.active_tasks ∧ b.productivity_score ≤ a.productivity_score)) Iff.rfl

/-- The retrieved candidate list (one deterministic refinement of the SQL
ordering, which leaves tie order unspecified). -/
def retrievedRows (db : DB) (orgId : String) : List CandRow :=
  List.insertionSort rowBefore (candidateRows db orgId)

/-- `s.toLowerCase()` (ASCII lowering; the skill tags involved are ASCII). -/
def lowerStr (s : String) : String := String.map Char.toLower s

/-- JavaScript `hay.includes(needle)`: substring containment. -/
def strIncludes (hay needle : List Char) : Bool :=
  needle.isPrefixOf hay ||
    match hay with
    | [] => false
    | _ :: t => strIncludes t needle

/-- `es.toLowerCase().includes(s.toLowerCase())`. -/
def ciIncludes (es s : String) : Bool :=
  strIncludes (lowerStr es).data (lowerStr s).data

/-- `requiredSkills.length > 0 ? requiredSkills.filter((s) =>
empSkills.some((es) => es.toLowerCase().includes(s.toLowerCase()))).length /
requiredSkills.length : 0.5`. -/
def skillMatch (requiredSkills : List String) (empSkills : List String) : ℚ :=
  if 0 < requiredSkills.length then
    ((requiredSkills.filter (fun s => empSkills.any (fun es => ciIncludes es s))).length : ℚ) /
      (requiredSkills.length : ℚ)
  else 0.5

/-- `Math.max(0, 1 - activeTasks / 10)`. -/
def workloadScore (active : ℕ) : ℚ := max 0 (1 - (active : ℚ) / 10)

/-- A candidate row annotated with its `recommendationScore` (the JavaScript
spread keeps every retrieved column). -/
structure Suggestion extends CandRow where
  recommendationScore : ℤ
deriving DecidableEq

/-- The per-employee scoring step of `getTaskAssignmentSuggestions`. -/
def mkSuggestion (requiredSkills : List String) (row : CandRow) : Suggestion :=
  let empSkills := row.skills.getD []
  let sm := skillMatch requiredSkills empSkills
  let wl := workloadScore row.active_tasks
  let aiSc := row.productivity_score / 100
  { toCandRow := row
    recommendationScore := jsRound ((sm * 0.4 + wl * 0.35 + aiSc * 0.25) * 100) }

/-- The comparator `(a, b) => b.recommendationScore - a.recommendationScore`
as a total preorder: `a` sorts at-or-before `b`. -/
def sugBefore (a b : Suggestion) : Prop :=
  b.recommendationScore ≤ a.recommendationScore

instance : DecidableRel sugBefore := fun a b =>
  decidable_of_iff (b.recommendationScore ≤ a.recommendationScore) Iff.rfl

instance : IsTotal Suggestion sugBefore :=
  ⟨fun a b => le_total b.recommendationScore a.recommendationScore⟩

instance : IsTrans Suggestion sugBefore :=
  ⟨fun _ _ _ h1 h2 => le_trans h2 h1⟩

/-- `getTaskAssignmentSuggestions(organizationId, requiredSkills)`: score every
retrieved candidate, stable-sort descending by `recommendationScore`, keep the
first five. -/
def getTaskAssignmentSuggestions (db : DB) (orgId : String)
    (requiredSkills : List String) : List Suggestion :=
  (List.insertionSort sugBefore
    ((retrievedRows db orgId).map (mkSuggestion requiredSkills))).take 5

/-! Counts written from the specification text, for comparison with the
source's `recentCompleted` and `prevPeriod`. -/

/-- Transcribed from the spec: completions whose `completed_at` lies in the
closed trailing window `[now-7d, now]`. -/
def specRecentWindowCount (tasks : List Task) (now : ℤ) : ℕ :=
  ((completedOf tasks).filter (fun t =>
    match t.completed_at with
    | none => false
    | some c => decide (now - 7 * dayMs ≤ c) && decide (c ≤ now))).length

/-- Transcribed from the spec: completions whose `completed_at` lies in the
preceding window `[now-14d, now-7d)`. -/
def specPrevWindowCount (tasks : List Task) (now : ℤ) : ℕ :=
  ((completedOf tasks).filter (fun t =>
    match t.completed_at with
    | none => false
    | some c => decide (now - 14 * dayMs ≤ c) && decide (c < now - 7 * dayMs))).length

/-! Concrete data used by counterexamples and witnesses. -/

/-- A completed low-priority task of employee e1, completed at time `n`,
due at day 10. -/
def exTaskC (n : ℤ) : Task :=
  { assigned_to := "e1"
    status := "completed"
    priority := "low"
    due_date := some (10 * dayMs)
    completed_at := some n
    created_at := 0 }

/-- A not-yet-completed task of employee e1. -/
def exTaskA : Task :=
  { assigned_to := "e1"
    status := "assigned"
    priority := "low"
    due_date := none
    completed_at := none
    created_at := 0 }

/-- Ten tasks: five completed on time long ago, five still assigned. -/
def exTasks : List Task :=
  [exTaskC 0, exTaskC 1, exTaskC 2, exTaskC 3, exTaskC 4,
   exTaskA, exTaskA, exTaskA, exTaskA, exTaskA]

/-- Employee e1 of organization o1. -/
def exUser : User :=
  { id := "e1"
    name := "E"
    department := "D"
    organization_id := "o1"
    role := "employee"
    is_active := true
    skills := some ["react.js"] }

/-- Database for the ten-task scenario. -/
def exDB : DB :=
  { users := [exUser], tasks := exTasks, ai_scores := fun _ => none }

/-- A current time 100 days after the epoch, so none of the five completions
of `exTasks` falls in the last 14 days. -/
def now0 : ℤ := 100 * dayMs

/-- Database with employee e1 but no tasks at all. -/
def dbNoTasks : DB :=
  { users := [exUser], tasks := [], ai_scores := fun _ => none }

/-- Completely empty database. -/
def dbEmpty : DB :=
  { users := [], tasks := [], ai_scores := fun _ => none }

/-! Helper lemmas shared by several claims. -/

/-- Evaluation of the zero-task branch of the engine. -/
lemma calc_zero_branch (uid : String) (db : DB) (now : ℤ)
    (h : (userTasks db uid).length = 0) :
    calculateProductivityScore uid db now =
      ({ score := 0
         taskCompletionRate := 0
         onTimeRate := 0
         complexityScore := 0
         recentActivityBonus := 0
         trend := "no_data"
         recommendations := ["Get started by completing your first task!"]
         totalTasks := none
         completedTasks := none }, db) := by
  unfold calculateProductivityScore
  simp [h]

/-- Evaluation of the main branch of the engine. -/
lemma calc_pos_branch (uid : String) (db : DB) (now : ℤ)
    (h : (userTasks db uid).length ≠ 0) :
    calculateProductivityScore uid db now =
      ({ score := scoreOf (userTasks db uid) now
         taskCompletionRate := (jsRound (completionRate (userTasks db uid) * 100) : ℚ)
         onTimeRate := (jsRound (onTimeRate (userTasks db uid) * 100) : ℚ)
         complexityScore := (jsRound (complexityScore (userTasks db uid) * 100) : ℚ)
         recentActivityBonus := (jsRound (recentBonus (userTasks db uid) now * 100) : ℚ)
         trend := trendOf (userTasks db uid) now
         recommendations := recommendationsOf (userTasks db uid) now
         totalTasks := some (userTasks db uid).length
         completedTasks := some (completedOf (userTasks db uid)).length },
       upsertScore db uid (scoreOf (userTasks db uid) now)
         (round2 (completionRate (userTasks db uid) * 100))
         (round2 (onTimeRate (userTasks db uid) * 100))
         (trendOf (userTasks db uid) now)
         (recommendationsOf (userTasks db uid) now) now) := by
  unfold calculateProductivityScore
  simp [h]

/-! Claim C1. -/

/-- C1 counterexample: for an employee with zero assigned tasks the returned
object does not carry `totalTasks = 0` and `completedTasks = 0`: the early
return of the source omits both keys (modelled as `none`), so the claimed
result shape is wrong at this input. -/
theorem c1_counterexample :
    (calculateProductivityScore "e1" dbNoTasks 0).1.totalTasks ≠ some 0 ∧
    (calculateProductivityScore "e1" dbNoTasks 0).1.completedTasks ≠ some 0 := by
  refine ⟨?_, ?_⟩ <;> with_unfolding_all decide

/-- C1 (amended): for every employee with zero assigned tasks,
`computeScore` returns immediately with `score = 0`, all four rates 0,
`trend = "no_data"`, the single starter recommendation, and it persists no
ProductivityRecord (the state is returned unchanged); the zero-task result
omits the `totalTasks` and `completedTasks` fields (`none`) instead of
carrying them as 0. -/
theorem c1_zero_tasks (uid : String) (db : DB) (now : ℤ)
    (h : (userTasks db uid).length = 0) :
    calculateProductivityScore uid db now =
      ({ score := 0
         taskCompletionRate := 0
         onTimeRate := 0
         complexityScore := 0
         recentActivityBonus := 0
         trend := "no_data"
         recommendations := ["Get started by completing your first task!"]
         totalTasks := none
         completedTasks := none }, db) :=
  calc_zero_branch uid db now h

/-- C1 witness: the zero-task theorem applied to the concrete no-task
database. -/
theorem c1_zero_tasks_witness :
    (userTasks dbNoTasks "e1").length = 0 ∧
    calculateProductivityScore "e1" dbNoTasks 0 =
      ({ score := 0
         taskCompletionRate := 0
         onTimeRate := 0
         complexityScore := 0
         recentActivityBonus := 0
         trend := "no_data"
         recommendations := ["Get started by completing your first task!"]
         totalTasks := none
         completedTasks := none }, dbNoTasks) :=
  ⟨by with_unfolding_all decide, c1_zero_tasks "e1" dbNoTasks 0 (by with_unfolding_all decide)⟩

/-! Claim C2. -/

lemma completionRate_nil : completionRate [] = 0 := by
  simp [completionRate, completedOf]

lemma onTimeRate_nil : onTimeRate [] = 0 := by
  simp [onTimeRate, completedOf]

lemma complexityScore_nil : complexityScore [] = 0 := by
  simp [complexityScore, completedOf]

lemma recentBonus_nil (now : ℤ) : recentBonus [] now = 0 := by
  simp [recentBonus, recentCompleted, completedOf]

lemma round2_zero : round2 0 = 0 := by
  with_unfolding_all decide

/-- C2: the returned score is the weighted raw score
`completionRate*40 + onTimeRate*30 + complexityScore*20 + recentBonus*10`,
clamped at 100 and rounded to two decimals — for every snapshot; and in the
ten-task scenario (5 completed on time, none high or medium priority, none in
the last 7 days) the score is 50 and exactly the two claimed recommendations
fire. -/
theorem c2_weighted_score (uid : String) (db : DB) (now : ℤ) :
    (calculateProductivityScore uid db now).1.score =
      round2 (min (completionRate (userTasks db uid) * 40 +
        onTimeRate (userTasks db uid) * 30 +
        complexityScore (userTasks db uid) * 20 +
        recentBonus (userTasks db uid) now * 10) 100) ∧
    (calculateProductivityScore "e1" exDB now0).1.score = 50 ∧
    "Take on higher priority tasks to boost score" ∈
      (calculateProductivityScore "e1" exDB now0).1.recommendations ∧
    "Stay active — complete tasks regularly" ∈
      (calculateProductivityScore "e1" exDB now0).1.recommendations ∧
    "Focus on completing assigned tasks" ∉
      (calculateProductivityScore "e1" exDB now0).1.recommendations ∧
    "Improve time management to meet deadlines" ∉
      (calculateProductivityScore "e1" exDB now0).1.recommendations := by
  refine ⟨?_, ?_, ?_, ?_, ?_, ?_⟩
  · by_cases h : (userTasks db uid).length = 0
    · rw [calc_zero_branch uid db now h, List.length_eq_zero.mp h]
      simp [completionRate_nil, onTimeRate_nil, complexityScore_nil, recentBonus_nil]
      rw [round2_zero]
    · rw [calc_pos_branch uid db now h]
      simp [scoreOf, rawScore]
  · with_unfolding_all decide
  · with_unfolding_all decide
  · with_unfolding_all decide
  · with_unfolding_all decide
  · with_unfolding_all decide

/-! Claim C3. -/

/-- When no completion timestamp lies in the future, the source's
lower-bound-only recent filter agrees with the closed window `[now-7d, now]`
of the spec. -/
lemma recentCompleted_eq_window (tasks : List Task) (now : ℤ)
    (h : ∀ t ∈ tasks, ∀ c, t.completed_at = some c → c ≤ now) :
    recentCompleted tasks now = specRecentWindowCount tasks now := by
  unfold recentCompleted specRecentWindowCount
  congr 1
  apply List.filter_congr
  intro t ht
  have ht' : t ∈ tasks := (List.mem_filter.mp ht).1
  cases hc : t.completed_at with
  | none => rfl
  | some c =>
    have hcle := h t ht' c hc
    simp [hcle]

/-- C3: `recentCompleted` counts exactly the completed tasks whose
`completed_at` lies in the closed trailing window `[now-7d, now]` (given that
completion timestamps are not in the future, which the system guarantees since
`completed_at` is set to `NOW()` at completion time), `recentBonus`
is `min(recentCompleted/3, 1)`, and any snapshot with 5 recent completions
gets the same bonus as one with 3. -/
theorem c3_recent_window (tasks : List Task) (now : ℤ)
    (h : ∀ t ∈ tasks, ∀ c, t.completed_at = some c → c ≤ now) :
    recentCompleted tasks now = specRecentWindowCount tasks now ∧
    recentBonus tasks now = min ((recentCompleted tasks now : ℚ) / 3) 1 ∧
    (∀ tasks2 now2 tasks3 now3, recentCompleted tasks2 now2 = 5 →
      recentCompleted tasks3 now3 = 3 →
      recentBonus tasks2 now2 = recentBonus tasks3 now3) := by
  refine ⟨recentCompleted_eq_window tasks now h, rfl, ?_⟩
  intro t2 n2 t3 n3 h5 h3
  simp only [recentBonus, h5, h3]
  with_unfolding_all decide

/-- C3 witness: the window theorem applied to the concrete ten-task scenario. -/
theorem c3_recent_window_witness :
    (∀ t ∈ exTasks, ∀ c, t.completed_at = some c → c ≤ now0) ∧
    (recentCompleted exTasks now0 = specRecentWindowCount exTasks now0 ∧
     recentBonus exTasks now0 = min ((recentCompleted exTasks now0 : ℚ) / 3) 1 ∧
     (∀ tasks2 now2 tasks3 now3, recentCompleted tasks2 now2 = 5 →
       recentCompleted tasks3 now3 = 3 →
       recentBonus tasks2 now2 = recentBonus tasks3 now3)) := by
  have h : ∀ t ∈ exTasks, ∀ c, t.completed_at = some c → c ≤ now0 := by
    intro t ht c hc
    fin_cases ht <;> simp [exTaskC, exTaskA, now0, dayMs] at hc ⊢ <;> omega
  exact ⟨h, c3_recent_window exTasks now0 h⟩

/-! Claim C4. -/

/-- The source's previous-period filter is literally the spec's window
`[now-14d, now-7d)`. -/
lemma prevPeriod_eq_window (tasks : List Task) (now : ℤ) :
    prevPeriod tasks now = specPrevWindowCount tasks now := rfl

/-- C4: with `recentCompleted` the completions in `[now-7d, now]` and
`prevPeriod` those in `[now-14d, now-7d)`, the returned trend is
"improving" iff the difference exceeds 1, "declining" iff it is below -1,
and "stable" otherwise — in particular at differences exactly 1, -1 and 0.
(Hypotheses: at least one task, and no future completion timestamps.) -/
theorem c4_trend (uid : String) (db : DB) (now : ℤ)
    (h0 : (userTasks db uid).length ≠ 0)
    (h : ∀ t ∈ userTasks db uid, ∀ c, t.completed_at = some c → c ≤ now) :
    ((calculateProductivityScore uid db now).1.trend = "improving" ↔
      (specRecentWindowCount (userTasks db uid) now : ℤ) -
        (specPrevWindowCount (userTasks db uid) now : ℤ) > 1) ∧
    ((calculateProductivityScore uid db now).1.trend = "declining" ↔
      (specRecentWindowCount (userTasks db uid) now : ℤ) -
        (specPrevWindowCount (userTasks db uid) now : ℤ) < -1) ∧
    ((calculateProductivityScore uid db now).1.trend = "stable" ↔
      (¬ (specRecentWindowCount (userTasks db uid) now : ℤ) -
        (specPrevWindowCount (userTasks db uid) now : ℤ) > 1 ∧
       ¬ (specRecentWindowCount (userTasks db uid) now : ℤ) -
        (specPrevWindowCount (userTasks db uid) now : ℤ) < -1)) ∧
    ((specRecentWindowCount (userTasks db uid) now : ℤ) -
        (specPrevWindowCount (userTasks db uid) now : ℤ) = 1 ∨
     (specRecentWindowCount (userTasks db uid) now : ℤ) -
        (specPrevWindowCount (userTasks db uid) now : ℤ) = -1 ∨
     (specRecentWindowCount (userTasks db uid) now : ℤ) -
        (specPrevWindowCount (userTasks db uid) now : ℤ) = 0 →
      (calculateProductivityScore uid db now).1.trend = "stable") := by
  have ht : (calculateProductivityScore uid db now).1.trend =
      trendOf (userTasks db uid) now := by
    rw [calc_pos_branch uid db now h0]
  have hr := recentCompleted_eq_window (userTasks db uid) now h
  have hp := prevPeriod_eq_window (userTasks db uid) now
  rw [ht]
  unfold trendOf
  rw [hr, hp]
  split_ifs with h1 h2
  · exact ⟨iff_of_true rfl (by omega), iff_of_false (by decide) (by omega),
      iff_of_false (by decide) (by omega), fun hd => absurd h1 (by omega)⟩
  · exact ⟨iff_of_false (by decide) (by omega), iff_of_true rfl (by omega),
      iff_of_false (by decide) (by omega), fun hd => absurd h2 (by omega)⟩
  · exact ⟨iff_of_false (by decide) (by omega), iff_of_false (by decide) (by omega),
      iff_of_true rfl (by omega), fun _ => rfl⟩

/-- C4 witness: the trend theorem applied to the concrete ten-task scenario
(difference 0, trend "stable"). -/
theorem c4_trend_witness :
    ((userTasks exDB "e1").length ≠ 0 ∧
     ∀ t ∈ userTasks exDB "e1", ∀ c, t.completed_at = some c → c ≤ now0) ∧
    (calculateProductivityScore "e1" exDB now0).1.trend = "stable" := by
  have h0 : (userTasks exDB "e1").length ≠ 0 := by with_unfolding_all decide
  have h : ∀ t ∈ userTasks exDB "e1", ∀ c, t.completed_at = some c → c ≤ now0 := by
    intro t ht c hc
    fin_cases ht <;> simp [exTaskC, exTaskA, now0, dayMs] at hc ⊢ <;> omega
  refine ⟨⟨h0, h⟩, ?_⟩
  exact (c4_trend "e1" exDB now0 h0 h).2.2.2 (by with_unfolding_all decide)

/-! Claim C5. -/

/-- A completed task with no due date, used to witness the
"on time regardless of completed_at" part of C5. -/
def exTaskCND : Task :=
  { assigned_to := "e1"
    status := "completed"
    priority := "low"
    due_date := none
    completed_at := some 987654321
    created_at := 0 }

/-- C5: a completed task is on time exactly when its due date is absent or
`completed_at <= due_date`; the on-time rate is `|onTimeTasks| / |completedTasks|`
for a non-empty completed set and 0 otherwise; and a single completed task
without a due date has on-time rate 1 regardless of its completion time.
(Hypothesis: completed tasks carry a completion timestamp, which the system
guarantees since `completed_at` is set to `NOW()` exactly when a task is
marked completed.) -/
theorem c5_ontime (tasks : List Task) (t0 : Task)
    (h : ∀ t ∈ completedOf tasks, (t.completed_at).isSome = true) :
    (∀ t ∈ completedOf tasks,
      (t ∈ onTimeTasks tasks ↔
        (t.due_date = none ∨
          ∃ d c, t.due_date = some d ∧ t.completed_at = some c ∧ c ≤ d))) ∧
    (0 < (completedOf tasks).length →
      onTimeRate tasks =
        ((onTimeTasks tasks).length : ℚ) / ((completedOf tasks).length : ℚ)) ∧
    ((completedOf tasks).length = 0 → onTimeRate tasks = 0) ∧
    (t0.status = "completed" → t0.due_date = none → onTimeRate [t0] = 1) := by
  refine ⟨?_, ?_, ?_, ?_⟩
  · intro t ht
    simp only [onTimeTasks, List.mem_filter]
    rcases hd : t.due_date with _ | d
    · simp [ht, hd]
    · obtain ⟨c, hc⟩ := Option.isSome_iff_exists.mp (h t ht)
      simp [ht, hd, hc, jsDate]
  · intro hpos
    simp [onTimeRate, hpos]
  · intro h0
    simp [onTimeRate, h0]
  · intro hs hd
    simp [onTimeRate, onTimeTasks, completedOf, hs, hd]

/-- C5 witness: the on-time theorem applied to the ten-task scenario with the
completed no-due-date task. -/
theorem c5_ontime_witness :
    (∀ t ∈ completedOf exTasks, (t.completed_at).isSome = true) ∧
    ((∀ t ∈ completedOf exTasks,
      (t ∈ onTimeTasks exTasks ↔
        (t.due_date = none ∨
          ∃ d c, t.due_date = some d ∧ t.completed_at = some c ∧ c ≤ d))) ∧
    (0 < (completedOf exTasks).length →
      onTimeRate exTasks =
        ((onTimeTasks exTasks).length : ℚ) / ((completedOf exTasks).length : ℚ)) ∧
    ((completedOf exTasks).length = 0 → onTimeRate exTasks = 0) ∧
    (exTaskCND.status = "completed" → exTaskCND.due_date = none →
      onTimeRate [exTaskCND] = 1)) :=
  ⟨by with_unfolding_all decide,
   c5_ontime exTasks exTaskCND (by with_unfolding_all decide)⟩

/-! Claim C6. -/

lemma jsRound_nonneg {q : ℚ} (h : 0 ≤ q) : 0 ≤ jsRound q := by
  unfold jsRound
  exact Int.le_floor.mpr (by push_cast; linarith)

lemma jsRound_le {q : ℚ} {n : ℤ} (h : q ≤ n) : jsRound q ≤ n := by
  unfold jsRound
  have h2 : ((⌊q + 1/2⌋ : ℤ) : ℚ) ≤ (n : ℚ) + 1/2 :=
    le_trans (Int.floor_le _) (by linarith)
  have h3 : ((⌊q + 1/2⌋ : ℤ) : ℚ) < (n : ℚ) + 1 := by linarith
  exact Int.lt_add_one_iff.mp (by exact_mod_cast h3)

lemma round2_nonneg {q : ℚ} (h : 0 ≤ q) : 0 ≤ round2 q := by
  unfold round2
  have hj := jsRound_nonneg (q := q * 100) (by positivity)
  exact div_nonneg (by exact_mod_cast hj) (by norm_num)

lemma round2_le_100 {q : ℚ} (h : q ≤ 100) : round2 q ≤ 100 := by
  unfold round2
  have h1 : jsRound (q * 100) ≤ (10000 : ℤ) := jsRound_le (by push_cast; linarith)
  rw [div_le_iff₀ (by norm_num : (0:ℚ) < 100)]
  calc ((jsRound (q * 100) : ℤ) : ℚ) ≤ 10000 := by exact_mod_cast h1
    _ = 100 * 100 := by norm_num

lemma completionRate_nonneg (tasks : List Task) : 0 ≤ completionRate tasks := by
  unfold completionRate
  positivity

lemma completionRate_le_one (tasks : List Task) : completionRate tasks ≤ 1 := by
  unfold completionRate
  apply div_le_one_of_le₀
  · exact_mod_cast List.length_filter_le _ tasks
  · positivity

lemma onTimeRate_nonneg (tasks : List Task) : 0 ≤ onTimeRate tasks := by
  unfold onTimeRate
  split
  · positivity
  · norm_num

lemma onTimeRate_le_one (tasks : List Task) : onTimeRate tasks ≤ 1 := by
  unfold onTimeRate
  split
  · apply div_le_one_of_le₀
    · exact_mod_cast List.length_filter_le _ (completedOf tasks)
    · positivity
  · norm_num

lemma length_filter_add_length_filter_le {α : Type} (p q : α → Bool) (l : List α)
    (hpq : ∀ a, p a = true → q a = false) :
    (l.filter p).length + (l.filter q).length ≤ l.length := by
  induction l with
  | nil => simp
  | cons a t ih =>
    by_cases hp : p a = true
    · have hq := hpq a hp
      simp only [List.filter_cons, hp, hq, if_true, if_false, Bool.false_eq_true,
        List.length_cons]
      omega
    · by_cases hq : q a = true <;>
        simp only [List.filter_cons, hp, hq, if_true, if_false, Bool.false_eq_true,
          if_neg, List.length_cons] <;> omega

lemma high_add_med_le (tasks : List Task) :
    highPriority tasks + medPriority tasks ≤ (completedOf tasks).length := by
  unfold highPriority medPriority
  apply length_filter_add_length_filter_le
  intro t hpt
  have ht : t.priority = "high" := by simpa using hpt
  simp [ht]

lemma complexityScore_nonneg (tasks : List Task) : 0 ≤ complexityScore tasks := by
  unfold complexityScore
  split
  · positivity
  · norm_num

lemma complexityScore_le_one (tasks : List Task) : complexityScore tasks ≤ 1 := by
  unfold complexityScore
  split
  · apply div_le_one_of_le₀
    · have hm : (0:ℚ) ≤ (medPriority tasks : ℚ) := by positivity
      have h1 : (highPriority tasks : ℚ) * 1.0 + (medPriority tasks : ℚ) * 0.6 ≤
          (highPriority tasks : ℚ) + (medPriority tasks : ℚ) := by linarith
      have h2 : (highPriority tasks : ℚ) + (medPriority tasks : ℚ) ≤
          ((completedOf tasks).length : ℚ) := by exact_mod_cast high_add_med_le tasks
      linarith
    · positivity
  · norm_num

lemma recentBonus_nonneg (tasks : List Task) (now : ℤ) : 0 ≤ recentBonus tasks now := by
  unfold recentBonus
  exact le_min (by positivity) zero_le_one

lemma recentBonus_le_one (tasks : List Task) (now : ℤ) : recentBonus tasks now ≤ 1 :=
  min_le_right _ _

lemma rawScore_nonneg (tasks : List Task) (now : ℤ) : 0 ≤ rawScore tasks now := by
  unfold rawScore
  have h1 := completionRate_nonneg tasks
  have h2 := onTimeRate_nonneg tasks
  have h3 := complexityScore_nonneg tasks
  have h4 := recentBonus_nonneg tasks now
  linarith

lemma jsRound_pct_mem {x : ℚ} (h0 : 0 ≤ x) (h1 : x ≤ 1) :
    0 ≤ (jsRound (x * 100) : ℚ) ∧ (jsRound (x * 100) : ℚ) ≤ 100 := by
  constructor
  · exact_mod_cast jsRound_nonneg (by positivity)
  · exact_mod_cast jsRound_le (n := 100) (by push_cast; linarith)

/-- C6: the returned score lies in [0,100], and the four returned
(post-rounding) rate fields each lie in [0,100], for every snapshot. -/
theorem c6_ranges (uid : String) (db : DB) (now : ℤ) :
    (0 ≤ (calculateProductivityScore uid db now).1.score ∧
      (calculateProductivityScore uid db now).1.score ≤ 100) ∧
    (0 ≤ (calculateProductivityScore uid db now).1.taskCompletionRate ∧
      (calculateProductivityScore uid db now).1.taskCompletionRate ≤ 100) ∧
    (0 ≤ (calculateProductivityScore uid db now).1.onTimeRate ∧
      (calculateProductivityScore uid db now).1.onTimeRate ≤ 100) ∧
    (0 ≤ (calculateProductivityScore uid db now).1.complexityScore ∧
      (calculateProductivityScore uid db now).1.complexityScore ≤ 100) ∧
    (0 ≤ (calculateProductivityScore uid db now).1.recentActivityBonus ∧
      (calculateProductivityScore uid db now).1.recentActivityBonus ≤ 100) := by
  by_cases h : (userTasks db uid).length = 0
  · rw [calc_zero_branch uid db now h]
    norm_num
  · rw [calc_pos_branch uid db now h]
    refine ⟨⟨?_, ?_⟩, ?_, ?_, ?_, ?_⟩
    · exact round2_nonneg (le_min (rawScore_nonneg _ _) (by norm_num))
    · exact round2_le_100 (min_le_right _ _)
    · exact jsRound_pct_mem (completionRate_nonneg _) (completionRate_le_one _)
    · exact jsRound_pct_mem (onTimeRate_nonneg _) (onTimeRate_le_one _)
    · exact jsRound_pct_mem (complexityScore_nonneg _) (complexityScore_le_one _)
    · exact jsRound_pct_mem (recentBonus_nonneg _ _) (recentBonus_le_one _ _)

/-! Claim C7. -/

/-- An admin requester of organization o1. -/
def reqAdmin : ReqUser :=
  { id := "a1", role := "admin", organization_id := "o1" }

/-- C7 counterexample: invoked directly with an employeeId that references no
existing employee, `calculateProductivityScore` does not fail — it succeeds
with the transient zero-task payload and leaves the state untouched. -/
theorem c7_counterexample :
    (calculateProductivityScore "ghost" dbEmpty 0).1 =
      { score := 0
        taskCompletionRate := 0
        onTimeRate := 0
        complexityScore := 0
        recentActivityBonus := 0
        trend := "no_data"
        recommendations := ["Get started by completing your first task!"]
        totalTasks := none
        completedTasks := none } ∧
    (calculateProductivityScore "ghost" dbEmpty 0).2 = dbEmpty := by
  constructor
  · with_unfolding_all decide
  · with_unfolding_all rfl

/-- C7 (amended): the NotFound failure for a nonexistent employee is produced
by the HTTP route, not by the service: an admin caller gets a 404 before the
score computation runs (an employee caller gets a 403, since an authenticated
employee's own id always exists); the service itself, given a nonexistent
employeeId, persists nothing — and with no tasks it returns the zero-task
payload as a success. -/
theorem c7_notfound (requester : ReqUser) (userId : String) (db : DB) (now : ℤ)
    (hno : ∀ u ∈ db.users, u.id ≠ userId) :
    (requester.role = "admin" →
      scoreRoute requester userId db now = (ScoreResponse.notFound, db)) ∧
    (requester.role = "employee" → (∃ u ∈ db.users, u.id = requester.id) →
      scoreRoute requester userId db now = (ScoreResponse.accessDenied, db)) ∧
    (calculateProductivityScore userId db now).2 = db ∧
    (userTasks db userId = [] →
      (calculateProductivityScore userId db now).1.trend = "no_data") := by
  have hfind : db.users.find? (fun u => u.id == userId) = none := by
    rw [List.find?_eq_none]
    intro u hu
    simp [hno u hu]
  have hpersist : (calculateProductivityScore userId db now).2 = db := by
    by_cases h : (userTasks db userId).length = 0
    · rw [calc_zero_branch userId db now h]
    · rw [calc_pos_branch userId db now h]
      simp [upsertScore, hfind]
  refine ⟨?_, ?_, hpersist, ?_⟩
  · intro hrole
    have hany : (db.users.any (fun u =>
        u.id == userId && u.organization_id == requester.organization_id)) = false := by
      rw [List.any_eq_false]
      intro u hu
      simp [hno u hu]
    simp [scoreRoute, hrole, hany]
  · intro hrole hex
    obtain ⟨u, hu, hid⟩ := hex
    have hne : requester.id ≠ userId := fun he => hno u hu (hid ▸ he)
    simp [scoreRoute, hrole, hne]
  · intro hnil
    rw [calc_zero_branch userId db now (by rw [hnil]; rfl)]

/-- C7 witness: an admin requesting the score of a nonexistent employee
receives the 404 NotFound response and the state is unchanged. -/
theorem c7_notfound_witness :
    (∀ u ∈ exDB.users, u.id ≠ "ghost") ∧
    scoreRoute reqAdmin "ghost" exDB 0 = (ScoreResponse.notFound, exDB) :=
  ⟨by with_unfolding_all decide,
   (c7_notfound reqAdmin "ghost" exDB 0 (by with_unfolding_all decide)).1 rfl⟩

/-! Claim C8. -/

lemma upsertRecord_fields (old? : Option AiScore) (orgId uid : String)
    (score tcr otr : ℚ) (trend : String) (recs : List String) (now : ℤ) :
    (upsertRecord old? orgId uid score tcr otr trend recs now).productivity_score = score ∧
    (upsertRecord old? orgId uid score tcr otr trend recs now).task_completion_rate = tcr ∧
    (upsertRecord old? orgId uid score tcr otr trend recs now).on_time_rate = otr ∧
    (upsertRecord old? orgId uid score tcr otr trend recs now).performance_trend = trend ∧
    (upsertRecord old? orgId uid score tcr otr trend recs now).recommendations = recs ∧
    (upsertRecord old? orgId uid score tcr otr trend recs now).last_calculated = now := by
  cases old? <;> simp [upsertRecord]

/-- C8: the only write of `computeScore` is the upsert of the calling
employee's record, performed exactly when there is at least one task: users
and tasks are never written, every other employee's score row is untouched,
the state is fully unchanged when there are no tasks, and with at least one
task the employee's row holds exactly the freshly computed values.
(Hypothesis: the employee exists, which the spec requires and the
tasks-to-users foreign key enforces whenever tasks are present.) -/
theorem c8_frame (uid : String) (db : DB) (now : ℤ)
    (hex : ∃ u ∈ db.users, u.id = uid) :
    (calculateProductivityScore uid db now).2.users = db.users ∧
    (calculateProductivityScore uid db now).2.tasks = db.tasks ∧
    (∀ v, v ≠ uid →
      (calculateProductivityScore uid db now).2.ai_scores v = db.ai_scores v) ∧
    ((userTasks db uid).length = 0 → (calculateProductivityScore uid db now).2 = db) ∧
    (0 < (userTasks db uid).length →
      ∃ r, (calculateProductivityScore uid db now).2.ai_scores uid = some r ∧
        r.productivity_score = scoreOf (userTasks db uid) now ∧
        r.task_completion_rate = round2 (completionRate (userTasks db uid) * 100) ∧
        r.on_time_rate = round2 (onTimeRate (userTasks db uid) * 100) ∧
        r.performance_trend = trendOf (userTasks db uid) now ∧
        r.recommendations = recommendationsOf (userTasks db uid) now ∧
        r.last_calculated = now) := by
  by_cases h : (userTasks db uid).length = 0
  · rw [calc_zero_branch uid db now h]
    exact ⟨rfl, rfl, fun v _ => rfl, fun _ => rfl, fun hpos => absurd h (by omega)⟩
  · rw [calc_pos_branch uid db now h]
    obtain ⟨u, hu, hid⟩ := hex
    have hs : (db.users.find? (fun x => x.id == uid)).isSome := by
      rw [List.find?_isSome]
      exact ⟨u, hu, by simp [hid]⟩
    obtain ⟨u', hu'⟩ := Option.isSome_iff_exists.mp hs
    unfold upsertScore
    rw [hu']
    refine ⟨rfl, rfl, fun v hv => by simp [hv], fun h0 => absurd h0 h, fun _ => ?_⟩
    exact ⟨upsertRecord (db.ai_scores uid) u'.organization_id uid
        (scoreOf (userTasks db uid) now)
        (round2 (completionRate (userTasks db uid) * 100))
        (round2 (onTimeRate (userTasks db uid) * 100))
        (trendOf (userTasks db uid) now)
        (recommendationsOf (userTasks db uid) now) now,
      by simp,
      upsertRecord_fields (db.ai_scores uid) u'.organization_id uid _ _ _ _ _ now⟩

/-- C8 witness: the frame theorem applied to the ten-task scenario. -/
theorem c8_frame_witness :
    (∃ u ∈ exDB.users, u.id = "e1") ∧
    ((calculateProductivityScore "e1" exDB now0).2.users = exDB.users ∧
    (calculateProductivityScore "e1" exDB now0).2.tasks = exDB.tasks ∧
    (∀ v, v ≠ "e1" →
      (calculateProductivityScore "e1" exDB now0).2.ai_scores v = exDB.ai_scores v) ∧
    ((userTasks exDB "e1").length = 0 →
      (calculateProductivityScore "e1" exDB now0).2 = exDB) ∧
    (0 < (userTasks exDB "e1").length →
      ∃ r, (calculateProductivityScore "e1" exDB now0).2.ai_scores "e1" = some r ∧
        r.productivity_score = scoreOf (userTasks exDB "e1") now0 ∧
        r.task_completion_rate = round2 (completionRate (userTasks exDB "e1") * 100) ∧
        r.on_time_rate = round2 (onTimeRate (userTasks exDB "e1") * 100) ∧
        r.performance_trend = trendOf (userTasks exDB "e1") now0 ∧
        r.recommendations = recommendationsOf (userTasks exDB "e1") now0 ∧
        r.last_calculated = now0)) :=
  ⟨by with_unfolding_all decide,
   c8_frame "e1" exDB now0 (by with_unfolding_all decide)⟩

/-! Claims C9 and C10. -/

/-- Every returned suggestion is the scoring of one retrieved candidate row. -/
lemma mem_suggestions_eq (db : DB) (orgId : String) (requiredSkills : List String)
    {c : Suggestion} (hc : c ∈ getTaskAssignmentSuggestions db orgId requiredSkills) :
    ∃ row ∈ retrievedRows db orgId, c = mkSuggestion requiredSkills row := by
  have h1 : c ∈ List.insertionSort sugBefore
      ((retrievedRows db orgId).map (mkSuggestion requiredSkills)) :=
    List.take_subset 5 _ hc
  have h2 : c ∈ (retrievedRows db orgId).map (mkSuggestion requiredSkills) :=
    (List.perm_insertionSort sugBefore _).mem_iff.mp h1
  obtain ⟨row, hrow, heq⟩ := List.mem_map.mp h2
  exact ⟨row, hrow, heq.symm⟩

/-- The candidate row of employee e1 as retrieved from `exDB` (five active
tasks, no persisted score). -/
def exRow : CandRow :=
  { id := "e1"
    name := "E"
    department := "D"
    skills := some ["react.js"]
    active_tasks := 5
    productivity_score := 0 }

/-- C9: every ranked candidate is scored with `skillMatch`, which is the fixed
neutral 0.5 when no skills are required and otherwise the fraction of required
skills matched case-insensitively as substrings of some candidate skill (one
match per required skill); requiring "React" against candidate skills
["react.js"] matches fully. -/
theorem c9_skill_match (db : DB) (orgId : String) (requiredSkills : List String)
    (c : Suggestion) (hc : c ∈ getTaskAssignmentSuggestions db orgId requiredSkills) :
    (∃ row ∈ retrievedRows db orgId, c = mkSuggestion requiredSkills row) ∧
    (requiredSkills = [] → skillMatch requiredSkills (c.skills.getD []) = 1/2) ∧
    (requiredSkills ≠ [] →
      skillMatch requiredSkills (c.skills.getD []) =
        ((requiredSkills.countP (fun s =>
          (c.skills.getD []).any (fun es => ciIncludes es s))) : ℚ) /
          (requiredSkills.length : ℚ)) ∧
    skillMatch ["React"] ["react.js"] = 1 := by
  refine ⟨mem_suggestions_eq db orgId requiredSkills hc, ?_, ?_, ?_⟩
  · intro he
    subst he
    simp [skillMatch]
    norm_num
  · intro hne
    rw [skillMatch, if_pos (by simpa using List.length_pos.mpr hne)]
    rw [List.countP_eq_length_filter]
  · with_unfolding_all decide

/-- C9 witness: the skill-match theorem applied to the concrete candidate with
skills ["react.js"] and required skills ["React"]. -/
theorem c9_skill_match_witness :
    (mkSuggestion ["React"] exRow ∈ getTaskAssignmentSuggestions exDB "o1" ["React"]) ∧
    ((∃ row ∈ retrievedRows exDB "o1",
        mkSuggestion ["React"] exRow = mkSuggestion ["React"] row) ∧
     ((["React"] : List String) = [] →
        skillMatch ["React"] ((mkSuggestion ["React"] exRow).skills.getD []) = 1/2) ∧
     ((["React"] : List String) ≠ [] →
        skillMatch ["React"] ((mkSuggestion ["React"] exRow).skills.getD []) =
          ((List.countP (fun s =>
            ((mkSuggestion ["React"] exRow).skills.getD []).any
              (fun es => ciIncludes es s)) ["React"]) : ℚ) /
            ((["React"] : List String).length : ℚ)) ∧
     skillMatch ["React"] ["react.js"] = 1) :=
  ⟨by with_unfolding_all decide,
   c9_skill_match exDB "o1" ["React"] (mkSuggestion ["React"] exRow)
     (by with_unfolding_all decide)⟩

/-- Two interchangeable employees of organization o2, to exhibit a ranking
tie. -/
def exUserA : User :=
  { id := "x1"
    name := "X"
    department := "D"
    organization_id := "o2"
    role := "employee"
    is_active := true
    skills := none }

/-- Second employee identical to `exUserA` except for the id. -/
def exUserB : User :=
  { id := "x2"
    name := "X"
    department := "D"
    organization_id := "o2"
    role := "employee"
    is_active := true
    skills := none }

/-- Database with two tied candidates and no tasks. -/
def dbTwo : DB :=
  { users := [exUserA, exUserB], tasks := [], ai_scores := fun _ => none }

/-- C10 counterexample: with two interchangeable candidates both scoring 55,
the returned list is not strictly descending in `recommendationScore`
(descending with a tie), so "strictly ordered" fails at this input. -/
theorem c10_counterexample :
    ¬ List.Pairwise (fun a b : Suggestion =>
        b.recommendationScore < a.recommendationScore)
      (getTaskAssignmentSuggestions dbTwo "o2" []) := by
  with_unfolding_all decide

/-- C10 (amended): the ranking returns at most 5 entries, ordered by
non-increasing (descending, ties allowed) `recommendationScore`, and each
entry's score is `round(100 * (skillMatch*0.4 + workloadScore*0.35 +
aiScore*0.25))` with `workloadScore = max(0, 1 - activeTasks/10)` and
`aiScore = productivityScore/100`. -/
theorem c10_ranking (db : DB) (orgId : String) (requiredSkills : List String) :
    (getTaskAssignmentSuggestions db orgId requiredSkills).length ≤ 5 ∧
    List.Pairwise (fun a b : Suggestion =>
        b.recommendationScore ≤ a.recommendationScore)
      (getTaskAssignmentSuggestions db orgId requiredSkills) ∧
    (∀ c ∈ getTaskAssignmentSuggestions db orgId requiredSkills,
      c.recommendationScore =
        jsRound (100 * (skillMatch requiredSkills (c.skills.getD []) * 0.4 +
          max 0 (1 - (c.active_tasks : ℚ) / 10) * 0.35 +
          c.productivity_score / 100 * 0.25))) := by
  refine ⟨List.length_take_le 5 _, ?_, ?_⟩
  · have hs := List.sorted_insertionSort sugBefore
      ((retrievedRows db orgId).map (mkSuggestion requiredSkills))
    exact hs.sublist (List.take_sublist 5 _)
  · intro c hc
    obtain ⟨row, hrow, heq⟩ := mem_suggestions_eq db orgId requiredSkills hc
    subst heq
    simp only [mkSuggestion, workloadScore]
    congr 1
    ring

/-- C10 witness: the amended ranking theorem applied to the two-candidate
database. -/
theorem c10_ranking_witness :
    (getTaskAssignmentSuggestions dbTwo "o2" []).length ≤ 5 ∧
    List.Pairwise (fun a b : Suggestion =>
        b.recommendationScore ≤ a.recommendationScore)
      (getTaskAssignmentSuggestions dbTwo "o2" []) ∧
    (∀ c ∈ getTaskAssignmentSuggestions dbTwo "o2" [],
      c.recommendationScore =
        jsRound (100 * (skillMatch [] (c.skills.getD []) * 0.4 +
          max 0 (1 - (c.active_tasks : ℚ) / 10) * 0.35 +
          c.productivity_score / 100 * 0.25))) :=
  c10_ranking dbTwo "o2" []

end MiniHRMS
